import Mathlib

/-!
Verification of the vehicle-analytics pipeline in `src/app.py`.

The file shallowly embeds the pure decision logic of the program:
`VehicleAnalyticsSystem.connect_ivcam`, `VehicleAnalyticsSystem.capture_frame`,
`VehicleAnalyticsSystem.send_to_databricks`, and the body of the live
detection loop in `main` (the throttle check and the result-ingestion step).
External effects (the cv2 camera, the HTTP transport, wall-clock time) are
passed in explicitly as environment values; the emitted side effects the
claims talk about (camera opens/reads/releases, display renders, network
calls, UI error logs) are returned as explicit event and log lists.
-/

namespace VehicleAnalytics

/-- Python `str.isdigit` restricted to ASCII digits: true iff the string is
non-empty and all characters are digits (`app.py` line 47). -/
def pyIsDigit (s : String) : Bool :=
  !s.isEmpty && s.all Char.isDigit

/-- Observable camera side effects of `connect_ivcam`: constructing a capture
(`cv2.VideoCapture`), a `cap.read()` attempt, and `cap.release()`. -/
inductive CamEvent where
  | camOpen
  | camRead
  | camRelease
deriving DecidableEq

/-- Environment supplied by cv2 to `connect_ivcam`: whether constructing the
capture raises, what `cap.isOpened()` returns, and the stream of
`cap.read()` results `(ret, frame)`; a frame is abstracted as a `Nat`. -/
structure CameraEnv where
  openRaises : Option String
  isOpened : Bool
  reads : List (Bool × Option Nat)
deriving DecidableEq

/-- The triple returned by `connect_ivcam`: `(success, message, cap)`.
The handle is abstract; only its presence matters to the claims. -/
structure ConnectResult where
  success : Bool
  message : String
  handle : Option Unit
deriving DecidableEq

/-- `VehicleAnalyticsSystem.connect_ivcam` (`app.py` lines 43-65), together
with the list of camera side effects it performs, in order. -/
def connect_ivcam (camera_input : String) (env : CameraEnv) :
    ConnectResult × List CamEvent :=
  match env.openRaises with
  | some e =>
      ({ success := false, message := "❌ Camera Error: " ++ e, handle := none }, [])
  | none =>
      let camera_type :=
        if pyIsDigit camera_input then "Camera Index " ++ camera_input
        else "URL " ++ camera_input
      if env.isOpened then
        let r := (env.reads.headD (false, none))
        if r.1 && r.2.isSome then
          ({ success := true, message := "✅ Connected to " ++ camera_type,
             handle := some () }, [.camOpen, .camRead])
        else
          ({ success := false, message := "❌ Camera connected but no video feed",
             handle := none }, [.camOpen, .camRead, .camRelease])
      else
        ({ success := false, message := "❌ Cannot access camera", handle := none },
         [.camOpen])

/-- One vehicle record of a detection payload; the fields `app.py` reads.
Confidence is a rational, standing for the JSON number. -/
structure VehicleDetection where
  vehicle_type : String
  confidence : ℚ
  color : String
  license_plate : String
deriving DecidableEq

/-- One other-object record of a detection payload; the fields `app.py` reads. -/
structure ObjectDetection where
  object_type : String
  confidence : ℚ
  location : String
  size_category : String
deriving DecidableEq

/-- The `detections` object of a response payload. Each field is `Option`al
because the remote payload may be malformed and omit it, in which case the
Python subscript chain `result["detections"]["vehicles"]` raises `KeyError`. -/
structure Detections where
  vehicles : Option (List VehicleDetection)
  other_objects : Option (List ObjectDetection)
deriving DecidableEq

/-- A parsed JSON response payload: the `success` flag (a missing key is
abstracted to `false`, since `result.get("success")` then returns `None`,
which is falsy like `False`) and the optional `detections` object. -/
structure Payload where
  success : Bool
  detections : Option Detections
deriving DecidableEq

/-- The session detection store: `self.vehicles_data` and
`self.other_objects_data` of `VehicleAnalyticsSystem` (`app.py` lines 40-41). -/
structure DetectionStore where
  vehicles_data : List VehicleDetection
  other_objects_data : List ObjectDetection
deriving DecidableEq

/-- The store as `VehicleAnalyticsSystem.__init__` creates it: both lists empty. -/
def initStore : DetectionStore :=
  { vehicles_data := [], other_objects_data := [] }

/-- Outcome of one HTTP POST as seen by `send_to_databricks`: either an
exception raised inside the `try` block (transport error, or a body that is
not JSON, so that `response.json()` raises), or a response with a status code
and a parsed body when the body is JSON. -/
inductive Transport where
  | exn (msg : String)
  | resp (status : Nat) (body : Option Payload)
deriving DecidableEq

/-- `VehicleAnalyticsSystem.send_to_databricks` (`app.py` lines 74-88):
returns the parsed payload on HTTP 200, else `none`; also returns the list
of UI error-log messages it emits (`st.error` is called only in the
`except` branch). -/
def send_to_databricks (t : Transport) : Option Payload × List String :=
  match t with
  | .exn m => (none, ["API Connection Error: " ++ m])
  | .resp status body =>
      if status = 200 then
        match body with
        | some p => (some p, [])
        | none => (none, ["API Connection Error: JSONDecodeError"])
      else (none, [])

/-- The result-ingestion step of the live loop (`app.py` lines 244-249):
`if result and result.get("success"):` then subscript `detections`,
`vehicles`, `other_objects` (each raising `KeyError` if missing, modelled as
`Except.error`) and extend both store lists. -/
def ingest (s : DetectionStore) (result : Option Payload) :
    Except String DetectionStore :=
  match result with
  | none => .ok s
  | some r =>
      if r.success then
        match r.detections with
        | none => .error "KeyError: detections"
        | some d =>
            match d.vehicles with
            | none => .error "KeyError: vehicles"
            | some vs =>
                match d.other_objects with
                | none => .error "KeyError: other_objects"
                | some os =>
                    .ok { vehicles_data := s.vehicles_data ++ vs,
                          other_objects_data := s.other_objects_data ++ os }
      else .ok s

/-- The store after the ingestion step ran on `result`: on the `KeyError`
path the exception propagates before either `extend`, so the store is left
as it was. -/
def storeAfter (s : DetectionStore) (result : Option Payload) : DetectionStore :=
  match ingest s result with
  | .ok s2 => s2
  | .error _ => s

/-- A result counts as a completed detection outcome exactly when it is
present, has a true `success` flag, and carries both required detection
lists; every other outcome is a failure (service error, unsuccessful flag,
or malformed payload). -/
def isCompletedOutcome : Option Payload → Bool
  | none => false
  | some r =>
      r.success &&
        (match r.detections with
         | none => false
         | some d => d.vehicles.isSome && d.other_objects.isSome)

/-- Observable events of one live-loop iteration, in program order:
the `capture_frame` read, the `stream_placeholder.image` render, the
`send_to_databricks` network call, and the `time.sleep(0.1)`. -/
inductive Ev where
  | evRead
  | evRender
  | evNetwork
  | evSleep
deriving DecidableEq

/-- The mutable state the live loop touches: the two session flags, the
detection store, `last_detection_time`, and `frame_count`
(`app.py` lines 216-217, 220-249). -/
structure LoopState where
  detection_active : Bool
  ivcam_connected : Bool
  store : DetectionStore
  last_detection_time : ℚ
  frame_count : Nat
deriving DecidableEq

/-- The `while` guard of the live loop (`app.py` line 220). -/
def loopGuard (s : LoopState) : Bool :=
  s.detection_active && s.ivcam_connected

/-- `VehicleAnalyticsSystem.capture_frame` (`app.py` lines 67-72): if the
capture is present and opened, perform one read and return the frame when
`ret` is true, else `None`. -/
def capture_frame (capOpen : Bool) (readRes : Bool × Option Nat) : Option Nat :=
  if capOpen then (if readRes.1 then readRes.2 else none) else none

/-- One iteration of the live detection loop body (`app.py` lines 221-284),
given the camera read outcome, the current time, the slider value
`refresh_rate`, and the transport outcome of the (at most one) network call.
Returns the state after the iteration, the uncaught exception if the
ingestion raised (which aborts the script run), and the event trace. -/
def loopIter (s : LoopState) (capOpen : Bool) (readRes : Bool × Option Nat)
    (now refresh_rate : ℚ) (t : Transport) :
    LoopState × Option String × List Ev :=
  match capture_frame capOpen readRes with
  | none => (s, none, [.evRead, .evSleep])
  | some _ =>
      let s1 := { s with frame_count := s.frame_count + 1 }
      if now - s1.last_detection_time > refresh_rate then
        let s2 := { s1 with last_detection_time := now }
        match ingest s2.store (send_to_databricks t).1 with
        | .ok st2 =>
            ({ s2 with store := st2 }, none,
             [.evRead, .evRender, .evNetwork, .evSleep])
        | .error e =>
            (s2, some e, [.evRead, .evRender, .evNetwork])
      else
        (s1, none, [.evRead, .evRender, .evSleep])

/-- The detection-frequency slider of the live tab (`app.py` line 209):
`st.slider("Detection Frequency (seconds)", 1, 10, 3)` as
(min, max, default). -/
def refresh_rate_slider : Nat × Nat × Nat := (1, 10, 3)

/-- A vehicle record whose confidence 2 lies outside [0, 1]. -/
def badVehicle : VehicleDetection :=
  { vehicle_type := "sedan", confidence := 2, color := "red", license_plate := "XYZ" }

/-- A successful, well-formed response payload carrying `badVehicle`. -/
def badResult : Option Payload :=
  some ⟨true, some ⟨some [badVehicle], some []⟩⟩

/-- Counterexample to C1: ingesting a successful result whose vehicle has
confidence 2 (outside [0, 1]) into the empty store leaves that vehicle in the
store's vehicle sequence — no rejection happens at ingestion. -/
theorem C1_counterexample :
    badVehicle.confidence > 1 ∧
    (storeAfter initStore badResult).vehicles_data = [badVehicle] := by
  constructor
  · norm_num [badVehicle]
  · rfl

/-- C1 (amended): ingestion performs no confidence-range validation at all:
every vehicle and object of a successful, well-formed result is appended to
the store verbatim, whatever its confidence, so out-of-range confidences are
stored rather than rejected. -/
theorem C1_ingestion_no_confidence_check (s : DetectionStore)
    (vs : List VehicleDetection) (os : List ObjectDetection) :
    storeAfter s (some ⟨true, some ⟨some vs, some os⟩⟩)
      = ⟨s.vehicles_data ++ vs, s.other_objects_data ++ os⟩ := rfl

/-- C7: ingesting one successfully correlated result whose vehicles are
sedan (confidence 0.92) then truck (confidence 0.65) appends both to the
store's vehicle sequence in that order, and the aggregated vehicle count
(`len(system.vehicles_data)`, `app.py` line 182) grows by exactly 2. -/
theorem C7_two_vehicles_appended (s : DetectionStore) (c1 l1 c2 l2 : String)
    (os : List ObjectDetection) :
    (storeAfter s (some ⟨true, some
        ⟨some [⟨"sedan", 92/100, c1, l1⟩, ⟨"truck", 65/100, c2, l2⟩],
         some os⟩⟩)).vehicles_data
        = s.vehicles_data ++ [⟨"sedan", 92/100, c1, l1⟩, ⟨"truck", 65/100, c2, l2⟩] ∧
    (storeAfter s (some ⟨true, some
        ⟨some [⟨"sedan", 92/100, c1, l1⟩, ⟨"truck", 65/100, c2, l2⟩],
         some os⟩⟩)).vehicles_data.length
        = s.vehicles_data.length + 2 := by
  constructor
  · rfl
  · simp [storeAfter, ingest]

/-- C9: `connect_ivcam` is total at its public interface: for every input
string and camera environment it returns a `(success, message, handle)`
triple, the handle is present exactly when the success flag is true, and an
exception raised inside the body is caught and turned into the error triple
rather than propagated. -/
theorem C9_total_interface (camera_input : String) (env : CameraEnv) :
    ((connect_ivcam camera_input env).1.handle.isSome
        = (connect_ivcam camera_input env).1.success) ∧
    (∀ e : String, ∀ b : Bool, ∀ rs : List (Bool × Option Nat),
        (connect_ivcam camera_input
            { openRaises := some e, isOpened := b, reads := rs }).1
          = { success := false, message := "❌ Camera Error: " ++ e,
              handle := none }) := by
  constructor
  · unfold connect_ivcam
    cases env.openRaises <;> simp
    split
    · split <;> rfl
    · rfl
  · intro e b rs
    rfl

/-- Every live-loop iteration produces one of exactly four event traces,
read off the four control paths of the loop body. -/
lemma loopIter_traces (s : LoopState) (capOpen : Bool)
    (readRes : Bool × Option Nat) (now rate : ℚ) (t : Transport) :
    (loopIter s capOpen readRes now rate t).2.2 = [.evRead, .evSleep] ∨
    (loopIter s capOpen readRes now rate t).2.2 = [.evRead, .evRender, .evSleep] ∨
    (loopIter s capOpen readRes now rate t).2.2
      = [.evRead, .evRender, .evNetwork, .evSleep] ∨
    (loopIter s capOpen readRes now rate t).2.2
      = [.evRead, .evRender, .evNetwork] := by
  unfold loopIter
  cases capture_frame capOpen readRes
  · simp
  · simp only []
    split
    · split <;> simp
    · simp

/-- C2: in every iteration of the live loop, no network event occurs in the
trace before the render event: the display path between reading a frame and
rendering it performs no remote-service call (the only `send_to_databricks`
call of an iteration comes strictly after the render). -/
theorem C2_display_path_no_network (s : LoopState) (capOpen : Bool)
    (readRes : Bool × Option Nat) (now rate : ℚ) (t : Transport) :
    Ev.evNetwork ∉ ((loopIter s capOpen readRes now rate t).2.2.takeWhile
      (fun e => !(e == Ev.evRender))) := by
  rcases loopIter_traces s capOpen readRes now rate t with h | h | h | h <;>
    rw [h] <;> decide

/-- Witness for C2 at a concrete iteration that does reach the network call. -/
theorem C2_display_path_no_network_witness :
    Ev.evNetwork ∉ ((loopIter (⟨true, true, ⟨[], []⟩, 0, 0⟩ : LoopState)
      true (true, some 0) 5 3 (Transport.resp 200 (some ⟨false, none⟩))).2.2.takeWhile
      (fun e => !(e == Ev.evRender))) :=
  C2_display_path_no_network (⟨true, true, ⟨[], []⟩, 0, 0⟩ : LoopState)
    true (true, some 0) 5 3 (Transport.resp 200 (some ⟨false, none⟩))

/-- Counterexample to C3: a camera that opens, whose first read yields
nothing but whose second read would yield a frame. `connect_ivcam` reports
failure after performing exactly one read attempt — it does not retry up to
10 times with a 100ms delay. -/
theorem C3_counterexample :
    ((connect_ivcam "1"
        ⟨none, true, [(false, none), (true, some 1)]⟩).1.success = false) ∧
    ((connect_ivcam "1"
        ⟨none, true, [(false, none), (true, some 1)]⟩).2.count CamEvent.camRead = 1) := by
  constructor
  · rfl
  · rfl

/-- C3 (amended): for every candidate that opens successfully, the prober
performs exactly one read attempt, with no delay and no retry, before
declaring success or failure; a single empty read makes the candidate fail. -/
theorem C3_single_read_attempt (camera_input : String) (env : CameraEnv)
    (hraise : env.openRaises = none) (hopen : env.isOpened = true) :
    (connect_ivcam camera_input env).2.count CamEvent.camRead = 1 := by
  unfold connect_ivcam
  rw [hraise]
  simp only [hopen, if_true]
  split <;> rfl

/-- Witness for C3 (amended) at a concrete opened camera. -/
theorem C3_single_read_attempt_witness :
    (connect_ivcam "0" ⟨none, true, [(true, some 0)]⟩).2.count CamEvent.camRead = 1 :=
  C3_single_read_attempt "0" ⟨none, true, [(true, some 0)]⟩ rfl rfl

/-- C4: for every input descriptor, when the source opens but the read
attempt yields no frame, `connect_ivcam` returns failure with no handle, and
its effect trace is exactly open, read, release — the opened handle is
released before returning, so no open handle is retained on this path. -/
theorem C4_open_no_frame_fails_and_releases (camera_input : String)
    (env : CameraEnv) (hraise : env.openRaises = none)
    (hopen : env.isOpened = true)
    (hread : ((env.reads.headD (false, none)).1 &&
              (env.reads.headD (false, none)).2.isSome) = false) :
    (connect_ivcam camera_input env).1.success = false ∧
    (connect_ivcam camera_input env).1.handle = none ∧
    (connect_ivcam camera_input env).2
      = [CamEvent.camOpen, CamEvent.camRead, CamEvent.camRelease] := by
  unfold connect_ivcam
  rw [hraise]
  simp only [hopen, if_true, hread]
  simp

/-- Witness for C4 at a camera that opens and whose read returns `(False, None)`. -/
theorem C4_open_no_frame_fails_and_releases_witness :
    (connect_ivcam "1" ⟨none, true, [(false, none)]⟩).1.success = false ∧
    (connect_ivcam "1" ⟨none, true, [(false, none)]⟩).1.handle = none ∧
    (connect_ivcam "1" ⟨none, true, [(false, none)]⟩).2
      = [CamEvent.camOpen, CamEvent.camRead, CamEvent.camRelease] :=
  C4_open_no_frame_fails_and_releases "1" ⟨none, true, [(false, none)]⟩ rfl rfl rfl

/-- Counterexample to C5: a captured frame at the exact moment
`now - lastSubmitTime = throttleInterval` (3 - 0 = 3, interval 3). The
claimed condition `now - lastSubmitTime >= throttleInterval` holds, yet the
iteration performs no network call: the code tests the strict inequality
`current_time - last_detection_time > refresh_rate`. -/
theorem C5_counterexample :
    ((3 : ℚ) - 0 ≥ 3) ∧
    Ev.evNetwork ∉ (loopIter (⟨true, true, ⟨[], []⟩, 0, 0⟩ : LoopState)
      true (true, some 0) 3 3 (Transport.resp 200 (some ⟨false, none⟩))).2.2 := by
  constructor
  · norm_num
  · simp [loopIter, capture_frame]

/-- C5 (amended): in every iteration that captures a frame, the frame is
forwarded for detection exactly when `now - lastSubmitTime` is strictly
greater than the throttle interval (at exact equality the frame is displayed
but not submitted); on submission `lastSubmitTime` is updated to `now`,
otherwise it is unchanged; the interval is configured by a slider with
minimum 1, maximum 10 and default 3 seconds. -/
theorem C5_throttle_strict (s : LoopState) (capOpen : Bool)
    (readRes : Bool × Option Nat) (now rate : ℚ) (t : Transport) (f : Nat)
    (hframe : capture_frame capOpen readRes = some f) :
    (Ev.evNetwork ∈ (loopIter s capOpen readRes now rate t).2.2 ↔
        now - s.last_detection_time > rate) ∧
    (now - s.last_detection_time > rate →
        (loopIter s capOpen readRes now rate t).1.last_detection_time = now) ∧
    (¬ now - s.last_detection_time > rate →
        (loopIter s capOpen readRes now rate t).1.last_detection_time
          = s.last_detection_time) ∧
    refresh_rate_slider = (1, 10, 3) := by
  unfold loopIter
  rw [hframe]
  simp only []
  by_cases hc : now - s.last_detection_time > rate
  · refine ⟨?_, fun _ => ?_, fun hn => absurd hc hn, rfl⟩ <;>
      · simp only [hc, if_pos]
        split <;> simp
  · refine ⟨?_, fun hp => absurd hp hc, fun _ => ?_, rfl⟩ <;>
      simp [hc]

/-- Witness for C5 (amended) at a concrete iteration: frame present,
`now - lastSubmitTime = 5 > 3 = rate`. -/
theorem C5_throttle_strict_witness :
    (Ev.evNetwork ∈ (loopIter (⟨true, true, ⟨[], []⟩, 0, 0⟩ : LoopState)
        true (true, some 7) 5 3 (Transport.resp 404 none)).2.2 ↔
        (5 : ℚ) - (⟨true, true, ⟨[], []⟩, 0, 0⟩ : LoopState).last_detection_time > 3) ∧
    ((5 : ℚ) - (⟨true, true, ⟨[], []⟩, 0, 0⟩ : LoopState).last_detection_time > 3 →
        (loopIter (⟨true, true, ⟨[], []⟩, 0, 0⟩ : LoopState)
          true (true, some 7) 5 3 (Transport.resp 404 none)).1.last_detection_time = 5) ∧
    (¬ (5 : ℚ) - (⟨true, true, ⟨[], []⟩, 0, 0⟩ : LoopState).last_detection_time > 3 →
        (loopIter (⟨true, true, ⟨[], []⟩, 0, 0⟩ : LoopState)
          true (true, some 7) 5 3 (Transport.resp 404 none)).1.last_detection_time
          = (⟨true, true, ⟨[], []⟩, 0, 0⟩ : LoopState).last_detection_time) ∧
    refresh_rate_slider = (1, 10, 3) :=
  C5_throttle_strict (⟨true, true, ⟨[], []⟩, 0, 0⟩ : LoopState)
    true (true, some 7) 5 3 (Transport.resp 404 none) 7 rfl

/-- Counterexample to C8: an iteration whose source read fails
(`ret = False`). Afterwards `detection_active` is still true, the event
trace is just read-then-sleep (no release, no exit), and the `while` guard
still holds, so the loop keeps running — `active` is not cleared and the
handle is not released by the failed read. -/
theorem C8_counterexample :
    ((loopIter (⟨true, true, ⟨[], []⟩, 0, 0⟩ : LoopState) true (false, none) 1 3
        (Transport.resp 200 (some ⟨false, none⟩))).1.detection_active = true) ∧
    ((loopIter (⟨true, true, ⟨[], []⟩, 0, 0⟩ : LoopState) true (false, none) 1 3
        (Transport.resp 200 (some ⟨false, none⟩))).2.2 = [Ev.evRead, Ev.evSleep]) ∧
    (loopGuard (loopIter (⟨true, true, ⟨[], []⟩, 0, 0⟩ : LoopState) true (false, none) 1 3
        (Transport.resp 200 (some ⟨false, none⟩))).1 = true) := by
  refine ⟨rfl, rfl, rfl⟩

/-- C8 (amended): when a source read fails mid-stream, the iteration leaves
the loop state entirely unchanged — in particular `active` is not cleared and
no release happens, the trace being exactly read then sleep — and the `while`
guard is unchanged, so the loop exits only when the `active`/`connected`
flags are cleared externally, not via the failed read. -/
theorem C8_read_failure_loop_continues (s : LoopState) (capOpen : Bool)
    (readRes : Bool × Option Nat) (now rate : ℚ) (t : Transport)
    (hfail : capture_frame capOpen readRes = none) :
    (loopIter s capOpen readRes now rate t).1 = s ∧
    (loopIter s capOpen readRes now rate t).2.2 = [Ev.evRead, Ev.evSleep] ∧
    loopGuard (loopIter s capOpen readRes now rate t).1 = loopGuard s := by
  unfold loopIter
  rw [hfail]
  exact ⟨rfl, rfl, rfl⟩

/-- Witness for C8 (amended) at a concrete failing read. -/
theorem C8_read_failure_loop_continues_witness :
    (loopIter (⟨true, true, ⟨[], []⟩, 2, 9⟩ : LoopState) true (false, some 4) 7 3
        (Transport.exn "boom")).1 = (⟨true, true, ⟨[], []⟩, 2, 9⟩ : LoopState) ∧
    (loopIter (⟨true, true, ⟨[], []⟩, 2, 9⟩ : LoopState) true (false, some 4) 7 3
        (Transport.exn "boom")).2.2 = [Ev.evRead, Ev.evSleep] ∧
    loopGuard (loopIter (⟨true, true, ⟨[], []⟩, 2, 9⟩ : LoopState) true (false, some 4) 7 3
        (Transport.exn "boom")).1 = loopGuard (⟨true, true, ⟨[], []⟩, 2, 9⟩ : LoopState) :=
  C8_read_failure_loop_continues (⟨true, true, ⟨[], []⟩, 2, 9⟩ : LoopState)
    true (false, some 4) 7 3 (Transport.exn "boom") rfl

/-- Counterexample to C6: a failed job whose service response has HTTP
status 500. The outcome is not a completed one, yet `send_to_databricks`
emits no error log at all (`st.error` is reached only in the `except`
branch; a non-200 status just returns `None` silently), contradicting the
claim that the error is logged. -/
theorem C6_counterexample :
    isCompletedOutcome (send_to_databricks (Transport.resp 500 none)).1 = false ∧
    (send_to_databricks (Transport.resp 500 none)).2 = [] := by
  exact ⟨rfl, rfl⟩

/-- C6 (amended): for every detection job whose outcome is Failed — the
service errored so the result is `None`, the `success` flag is false, or the
payload is malformed and misses a required field — no detections are stored:
the detection store's vehicle and object sequences are unchanged by that job
(on the malformed path a `KeyError` aborts the iteration before either
`extend`). Only a transport exception is logged to the UI error sink; a
non-200 response is returned as `None` with no log entry. -/
theorem C6_failed_outcome_store_unchanged (s : DetectionStore)
    (r : Option Payload) (hr : isCompletedOutcome r = false) :
    storeAfter s r = s ∧
    (∀ m : String, (send_to_databricks (Transport.exn m)).2
        = ["API Connection Error: " ++ m]) ∧
    (∀ status : Nat, ∀ body : Option Payload, status ≠ 200 →
        (send_to_databricks (Transport.resp status body)).2 = []) := by
  refine ⟨?_, fun m => rfl, fun status body hst => by simp [send_to_databricks, hst]⟩
  cases r with
  | none => rfl
  | some p =>
      obtain ⟨psucc, pdet⟩ := p
      cases psucc with
      | false => rfl
      | true =>
          cases pdet with
          | none => rfl
          | some d =>
              obtain ⟨dvs, dos⟩ := d
              cases dvs with
              | none => rfl
              | some vs =>
                  cases dos with
                  | none => rfl
                  | some os => simp [isCompletedOutcome] at hr

/-- Witness for C6 (amended) at a concrete failed job: transport error, so
the ingested result is `None`. -/
theorem C6_failed_outcome_store_unchanged_witness :
    storeAfter initStore none = initStore ∧
    (∀ m : String, (send_to_databricks (Transport.exn m)).2
        = ["API Connection Error: " ++ m]) ∧
    (∀ status : Nat, ∀ body : Option Payload, status ≠ 200 →
        (send_to_databricks (Transport.resp status body)).2 = []) :=
  C6_failed_outcome_store_unchanged initStore none rfl

/-- C10: `send_to_databricks` returns the parsed payload exactly when the
transport yields an HTTP 200 response with a parseable body (an exception
anywhere in the request or parsing, and any non-200 status, give `None`
instead of raising); and whenever it returns `None`, the ingestion step
leaves the session's vehicle and object sequences unchanged. -/
theorem C10_send_contract (t : Transport) (s : DetectionStore) (p : Payload) :
    ((send_to_databricks t).1 = some p ↔ t = Transport.resp 200 (some p)) ∧
    ((send_to_databricks t).1 = none →
        storeAfter s (send_to_databricks t).1 = s) := by
  constructor
  · cases t with
    | exn m => simp [send_to_databricks]
    | resp status body =>
        by_cases hst : status = 200
        · subst hst
          cases body with
          | none => simp [send_to_databricks]
          | some q => simp [send_to_databricks]
        · simp [send_to_databricks, hst]
  · intro hn
    rw [hn]
    rfl

/-- Witness for C10 at a concrete 200 response with a parsed payload. -/
theorem C10_send_contract_witness :
    ((send_to_databricks (Transport.resp 200 (some ⟨false, none⟩))).1
        = some (⟨false, none⟩ : Payload) ↔
      Transport.resp 200 (some ⟨false, none⟩)
        = Transport.resp 200 (some (⟨false, none⟩ : Payload))) ∧
    ((send_to_databricks (Transport.resp 200 (some ⟨false, none⟩))).1 = none →
        storeAfter initStore
          (send_to_databricks (Transport.resp 200 (some ⟨false, none⟩))).1
          = initStore) :=
  C10_send_contract (Transport.resp 200 (some ⟨false, none⟩)) initStore ⟨false, none⟩

end VehicleAnalytics
